import Mathlib

/-!
Verification of the VeriGPT retrieval-augmented question-answering service.

The development shallowly embeds the parts of the repository that the
specification talks about:

* the prompt bank's placeholder substitution (`src/app/prompt_bank.py`,
  `PromptBank.format_prompt`),
* the chunking pipeline (`src/verigpt_agent.py`, `VeriGPTAgent.split_content`;
  the inner text splitter is the external langchain
  `RecursiveCharacterTextSplitter`, which is not part of this repository and
  is therefore modelled from the specification, section 4.2),
* the corpus loader (`src/verigpt_agent.py`,
  `VeriGPTAgent.load_sv_files_from_data`) over an abstract file system,
* the statistics endpoint (`src/app/main.py` and `src/main.py`, `get_stats`),
* the query endpoint (`src/app/main.py`, `agent_endpoint`).

Text is modelled as `List Char` (Python strings are sequences of unicode
code points, and `len`/slicing count code points, matching list length and
`take`/`drop`).
-/

set_option maxRecDepth 4096

namespace VeriGPT

/-! ## Text utilities -/

/-- Substring test: does `pat` occur contiguously inside `s`?  Models the
Python expression `placeholder in formatted_prompt`
(src/app/prompt_bank.py, line 48). -/
def occursIn (pat : List Char) : List Char → Bool
  | [] => pat.isEmpty
  | c :: rest => pat.isPrefixOf (c :: rest) || occursIn pat rest

/-- Fuel-driven worker for `replaceAll`.  Python's `str.replace` scans the
string left to right and replaces each non-overlapping occurrence of the
pattern, never rescanning the replacement text.  Every step consumes at
least one character of the input, so fuel equal to the input length always
suffices; the fuel-0 row is unreachable under that discipline.  (Python's
behaviour for an empty pattern, which inserts the replacement between
characters, is not modelled: `format_prompt` only ever uses the nonempty
pattern `\x7b\x7bkey\x7d\x7d`, and the nonempty-pattern guard below makes
the empty-pattern case the identity.) -/
def replaceAllFuel (pat rep : List Char) : Nat → List Char → List Char
  | 0, s => s
  | _ + 1, [] => []
  | fuel + 1, c :: rest =>
    if pat.isPrefixOf (c :: rest) && !pat.isEmpty then
      rep ++ replaceAllFuel pat rep fuel (rest.drop (pat.length - 1))
    else
      c :: replaceAllFuel pat rep fuel rest

/-- Replace every (left-to-right, non-overlapping) occurrence of `pat` by
`rep` in `s`.  Models Python `s.replace(pat, rep)` for nonempty `pat`
(src/app/prompt_bank.py, line 49). -/
def replaceAll (pat rep s : List Char) : List Char :=
  replaceAllFuel pat rep s.length s

/-! ## Prompt bank (src/app/prompt_bank.py) -/

/-- The placeholder token for a parameter name: Python
`f"\x7b\x7b\x7b\x7b\x7bkey\x7d\x7d\x7d\x7d\x7d"`, i.e. the name wrapped
in double braces (src/app/prompt_bank.py, line 47). -/
def placeholderOf (key : List Char) : List Char :=
  "\x7b\x7b".toList ++ key ++ "\x7d\x7d".toList

/-- Result of `format_prompt`: the accumulated prompt text and the list of
placeholders that were warned about (a supplied parameter whose placeholder
does not occur in the current prompt text triggers a printed warning and is
otherwise ignored; src/app/prompt_bank.py, line 51). -/
structure FormatState where
  prompt : List Char
  warnings : List (List Char)
  deriving DecidableEq, Repr

/-- PromptBank.format_prompt (src/app/prompt_bank.py, lines 39-55) applied
to an already-loaded template.  The Python code iterates over the keyword
arguments in order; for each it builds the `\x7b\x7bkey\x7d\x7d`
placeholder, and if the placeholder occurs in the current accumulated
prompt it replaces every occurrence with the value, otherwise it prints a
warning.  No code path raises for a placeholder that has no supplied
value: such a token is simply never touched. -/
def format_prompt (template : List Char) (kwargs : List (List Char × List Char)) :
    FormatState :=
  kwargs.foldl
    (fun st kv =>
      let placeholder := placeholderOf kv.1
      if occursIn placeholder st.prompt then
        { st with prompt := replaceAll placeholder kv.2 st.prompt }
      else
        { st with warnings := st.warnings ++ [placeholder] })
    { prompt := template, warnings := [] }

/-- Fuel-driven worker for `simultaneousSubst`; see there. -/
def simultaneousSubstFuel (kwargs : List (List Char × List Char)) :
    Nat → List Char → List Char
  | 0, s => s
  | _ + 1, [] => []
  | fuel + 1, c :: rest =>
    match kwargs.find? (fun kv => (placeholderOf kv.1).isPrefixOf (c :: rest)) with
    | some kv =>
      kv.2 ++ simultaneousSubstFuel kwargs fuel (rest.drop ((placeholderOf kv.1).length - 1))
    | none => c :: simultaneousSubstFuel kwargs fuel rest

/-- Simultaneous substitution of all parameters, written from the claim's
words for comparison with the sequential `format_prompt`: the template is
scanned once, each placeholder occurrence is replaced by the corresponding
value, and substituted values are emitted verbatim (they are never
rescanned, so a placeholder token inside a value survives). -/
def simultaneousSubst (kwargs : List (List Char × List Char)) (s : List Char) :
    List Char :=
  simultaneousSubstFuel kwargs s.length s

/-! ## Chunker

The repository delegates splitting to langchain's
`RecursiveCharacterTextSplitter(chunk_size=1000, chunk_overlap=200,
separators=["\n\n", "\n", " ", ""])` (src/verigpt_agent.py, lines 112-116;
src/build_index.py, line 31), an external library that is not part of this
repository.  The splitter itself is therefore modelled from the spec. -/

/-- Fuel-driven worker for `chunkWindows`.  Each recursive step drops at
least one element, so fuel equal to the input length always suffices. -/
def chunkWindowsFuel (size ov : Nat) : Nat → List α → List (List α)
  | _, [] => []
  | 0, _ => []
  | fuel + 1, l =>
    if l.length ≤ size then [l]
    else l.take size :: chunkWindowsFuel size ov fuel (l.drop (max 1 (size - ov)))

/-- Modelled from the spec: the text splitter (spec section 4.2) produces
fixed-size overlapping windows over the document: each chunk's length is at
most `size`, adjacent chunks overlap by the configured amount `ov`, no
chunk is empty, and splitting is a deterministic function of the input.
The window therefore advances by `size - ov` positions per chunk and stops
once a window reaches the end of the document.  (The spec's
boundary-preference refinement, which only moves cut points, is not
modelled.)  The missing code is langchain's
`RecursiveCharacterTextSplitter.split_text`. -/
def chunkWindows (size ov : Nat) (l : List α) : List (List α) :=
  chunkWindowsFuel size ov l.length l

/-- Modelled from the spec: splitting one document's content with the
configured window size 1000 and overlap 200
(src/verigpt_agent.py, lines 112-116). -/
def split_text (content : List Char) : List (List Char) :=
  chunkWindows 1000 200 content

/-- Concatenation of a chunk list after removing the first `ov` elements of
each chunk. -/
def dropOverlapJoin (ov : Nat) : List (List α) → List α
  | [] => []
  | c :: cs => c.drop ov ++ dropOverlapJoin ov cs

/-- Reassemble a chunk sequence: keep the first chunk whole and remove the
configured overlap from the front of every later chunk, then concatenate
(the spec's round-trip reading, section 8). -/
def reassemble (ov : Nat) : List (List α) → List α
  | [] => []
  | c :: cs => c ++ dropOverlapJoin ov cs

/-! ## Documents and chunks (src/verigpt_agent.py) -/

/-- Metadata attached to a loaded document
(src/verigpt_agent.py, lines 92-101). -/
structure DocMeta where
  filename : String
  path : String
  full_path : String
  extension : String
  size : Nat
  deriving DecidableEq, Repr

/-- A loaded document: its text and its metadata (langchain `Document`). -/
structure Document where
  page_content : List Char
  metadata : DocMeta
  deriving DecidableEq, Repr

/-- Metadata attached to a chunk: the parent document's metadata merged
with the chunk's 0-based index and the total chunk count
(src/verigpt_agent.py, lines 124-131; the Python dict merge
`\x7b**doc.metadata, "chunk_index": i, "total_chunks": len(chunks)\x7d`
has disjoint keys, so it is a plain product). -/
structure ChunkMeta where
  parent : DocMeta
  chunk_index : Nat
  total_chunks : Nat
  deriving DecidableEq, Repr

/-- A chunk produced by `split_content`. -/
structure Chunk where
  page_content : List Char
  metadata : ChunkMeta
  deriving DecidableEq, Repr

/-- VeriGPTAgent.split_content (src/verigpt_agent.py, lines 110-135): for
each document, split its content with the configured splitter and wrap
each piece, in enumeration order, with the parent metadata plus
`chunk_index` and `total_chunks`. -/
def split_content (documents : List Document) : List Chunk :=
  documents.flatMap fun doc =>
    let chunks := split_text doc.page_content
    chunks.enum.map fun ic =>
      { page_content := ic.2
        metadata :=
          { parent := doc.metadata
            chunk_index := ic.1
            total_chunks := chunks.length } }

/-! ## Corpus loader (src/verigpt_agent.py, lines 62-108)

The file system is abstracted as the root directory's existence flag plus
the list of files that a recursive traversal visits, in traversal order.
`glob.glob(root/**/*.ext, recursive=True)` returns, in that same traversal
order, the files whose name matches `*.ext`; the loader calls it once per
allowed extension and concatenates the results. -/

/-- One file visible to the traversal: its base name, its path relative to
the corpus root, its full path, the extension the glob pattern matches it
by (without the dot), its on-disk byte size as reported by `stat` (`none`
if `stat` fails), and the decoded text that reading it yields (`none` if
`open`/`read` raises). -/
structure FSFile where
  name : String
  relPath : String
  fullPath : String
  ext : String
  statSize : Option Nat
  readResult : Option (List Char)
  deriving DecidableEq, Repr

/-- The abstract file system under the corpus root. -/
structure FileSystem where
  rootExists : Bool
  files : List FSFile
  deriving DecidableEq, Repr

/-- Allowed corpus extensions (src/verigpt_agent.py, line 43). -/
def ALLOWED_FILE_EXTENSIONS : List String := ["sv", "svh"]

/-- The concatenated glob results: for each allowed extension in order, the
files matching that extension, in traversal order
(src/verigpt_agent.py, lines 71-75). -/
def globMatches (fs : FileSystem) : List FSFile :=
  ALLOWED_FILE_EXTENSIONS.flatMap fun ext => fs.files.filter fun f => f.ext == ext

/-- The two load-level failures of the corpus loader: the root directory is
missing (`FileNotFoundError("Data directory ... not found")`,
src/verigpt_agent.py, line 68), or the traversal matched no file
(`FileNotFoundError("No files with extensions ... found ...")`, line 78).
The spec's taxonomy names these `NotFoundError` and `NoFilesFoundError`. -/
inductive LoadError where
  | notFound
  | noFilesFound
  deriving DecidableEq, Repr

/-- The document built from a successfully read file
(src/verigpt_agent.py, lines 92-101): Python `len(content)` counts
characters, and `Path(file).suffix` is the extension with its dot. -/
def docOfFile (f : FSFile) (content : List Char) : Document :=
  { page_content := content
    metadata :=
      { filename := f.name
        path := f.relPath
        full_path := f.fullPath
        extension := "." ++ f.ext
        size := content.length } }

/-- VeriGPTAgent.load_sv_files_from_data (src/verigpt_agent.py, lines
62-108): fail if the root is missing, fail if no file matches, otherwise
read the matched files in order; a file whose read raises is skipped (the
exception is caught, logged and the loop continues), every other file
contributes a document. -/
def load_sv_files_from_data (fs : FileSystem) : Except LoadError (List Document) :=
  if !fs.rootExists then .error .notFound
  else if (globMatches fs).isEmpty then .error .noFilesFound
  else .ok ((globMatches fs).filterMap fun f => f.readResult.map (docOfFile f))

/-! ## Statistics endpoint (src/app/main.py, lines 211-247; the copy in
src/main.py, lines 191-227, is identical) -/

/-- Python `round(x, 2)` at rational inputs: scale by 100, round to the
nearest integer, scale back.  (Python rounds floats and breaks ties to
even; the inputs considered here are not ties, where the two roundings
agree.) -/
def round2 (q : ℚ) : ℚ := (round (q * 100) : ℤ) / 100

/-- Number of traversed files matching one extension. -/
def extCount (fs : FileSystem) (ext : String) : Nat :=
  (fs.files.filter fun f => f.ext == ext).length

/-- Total `stat` size of the traversed files matching one extension; a file
whose `stat` raises is skipped (`except: pass`, src/app/main.py,
lines 236-237). -/
def extSize (fs : FileSystem) (ext : String) : Nat :=
  ((fs.files.filter fun f => f.ext == ext).map fun f => f.statSize.getD 0).sum

/-- The stats response body (src/app/main.py, lines 239-244). -/
structure Stats where
  total_files : Nat
  file_types : List (String × Nat)
  total_size_bytes : Nat
  total_size_mb : ℚ
  deriving DecidableEq, Repr

/-- get_stats (src/app/main.py, lines 211-247): `none` models the
`\x7b"error": ...\x7d` body returned when the corpus root is missing;
otherwise the per-extension counts, the summed byte size and the size in
megabytes rounded to 2 decimals. -/
def get_stats (fs : FileSystem) : Option Stats :=
  if !fs.rootExists then none
  else
    let total_size := (ALLOWED_FILE_EXTENSIONS.map (extSize fs)).sum
    some
      { total_files := (ALLOWED_FILE_EXTENSIONS.map (extCount fs)).sum
        file_types := ALLOWED_FILE_EXTENSIONS.map fun e => (e, extCount fs e)
        total_size_bytes := total_size
        total_size_mb := round2 ((total_size : ℚ) / (1024 * 1024)) }

/-! ## Query endpoint (src/app/main.py, lines 275-316) -/

/-- The request body of `POST /agent` (src/app/main.py, lines 94-97).  The
pydantic model declares `query: str` and `top_k: int = 3` with no
validators, so any string and any integer are accepted. -/
structure AgentRequest where
  query : String
  top_k : Int := 3
  deriving DecidableEq, Repr

/-- What the handler does before its first external call: either it raises
an `HTTPException` with the given status, or control reaches the
`vectorstore.similarity_search(req.query, k=req.top_k)` call with the given
arguments (src/app/main.py, line 286).  Everything after that first
network call (prompt loading, the chat-completion call, the 200 response,
the blanket `except` that maps in-`try` failures to a 500) happens strictly
later in the handler, so an outcome other than `retrievalAttempted` also
means no LLM call is made. -/
inductive AgentOutcome where
  | httpError (status : Nat)
  | retrievalAttempted (query : String) (k : Int)
  deriving DecidableEq, Repr

/-- agent_endpoint (src/app/main.py, lines 275-316), cut at its first
external call: the only check before retrieval is `if not vectorstore`,
which raises a 503; otherwise the handler immediately performs the
similarity search with the request's query and top_k, unvalidated. -/
def agent_endpoint (vectorstoreLoaded : Bool) (req : AgentRequest) : AgentOutcome :=
  if !vectorstoreLoaded then .httpError 503
  else .retrievalAttempted req.query req.top_k

/-! ## Concrete fixtures used by witnesses and counterexamples -/

/-- A file system whose corpus root does not exist. -/
def fsNoRoot : FileSystem := { rootExists := false, files := [] }

/-- A corpus root that exists but holds no file with an allowed extension. -/
def fsEmptyCorpus : FileSystem :=
  { rootExists := true
    files := [{ name := "notes.txt", relPath := "notes.txt",
                fullPath := "data/raw_full/notes.txt", ext := "txt",
                statSize := some 3, readResult := some "abc".toList }] }

/-- A matched file whose read raises. -/
def badFile : FSFile :=
  { name := "bad.sv", relPath := "bad.sv", fullPath := "data/raw_full/bad.sv",
    ext := "sv", statSize := some 10, readResult := none }

/-- A matched file that reads fine. -/
def goodFile : FSFile :=
  { name := "good.sv", relPath := "good.sv", fullPath := "data/raw_full/good.sv",
    ext := "sv", statSize := some 2, readResult := some "xy".toList }

/-- A corpus with one unreadable and one readable file. -/
def fsPartial : FileSystem := { rootExists := true, files := [badFile, goodFile] }

/-- An `.svh` file that the traversal visits first. -/
def svhFirstFile : FSFile :=
  { name := "a.svh", relPath := "a.svh", fullPath := "data/raw_full/a.svh",
    ext := "svh", statSize := some 1, readResult := some "a".toList }

/-- An `.sv` file that the traversal visits second. -/
def svLaterFile : FSFile :=
  { name := "b.sv", relPath := "b.sv", fullPath := "data/raw_full/b.sv",
    ext := "sv", statSize := some 1, readResult := some "b".toList }

/-- A corpus whose traversal order (`a.svh` before `b.sv`) differs from both
the loader's output order and the path-sorted order. -/
def fsMixed : FileSystem := { rootExists := true, files := [svhFirstFile, svLaterFile] }

/-- The spec's stats example: one 1024-byte `.sv` file and one 512-byte
`.svh` file. -/
def fsStats : FileSystem :=
  { rootExists := true
    files := [{ name := "m.sv", relPath := "m.sv", fullPath := "data/raw_full/m.sv",
                ext := "sv", statSize := some 1024, readResult := some [] },
              { name := "p.svh", relPath := "p.svh", fullPath := "data/raw_full/p.svh",
                ext := "svh", statSize := some 512, readResult := some [] }] }

/-- A small document for exercising the chunk pipeline. -/
def sampleDoc : Document :=
  { page_content := "module m; endmodule".toList
    metadata := { filename := "m.sv", path := "m.sv",
                  full_path := "data/raw_full/m.sv", extension := ".sv", size := 19 } }

/-- The single chunk that `split_content` produces from `sampleDoc`. -/
def sampleChunk : Chunk :=
  { page_content := "module m; endmodule".toList
    metadata := { parent := sampleDoc.metadata, chunk_index := 0, total_chunks := 1 } }

/-! ## Query endpoint: claims C1 and C4 -/

/-- C1, counterexample: the claim says an empty query or a non-positive
top_k fails with a 400 before any retrieval is attempted.  In the code the
handler performs no such validation: with the index loaded, an empty query
(and likewise a non-positive top_k) goes straight to the vector-store
search. -/
theorem agent_endpoint_skips_validation_cex :
    agent_endpoint true { query := "", top_k := 3 } =
      AgentOutcome.retrievalAttempted "" 3 ∧
    agent_endpoint true { query := "", top_k := 3 } ≠ AgentOutcome.httpError 400 ∧
    agent_endpoint true { query := "fifo", top_k := -1 } =
      AgentOutcome.retrievalAttempted "fifo" (-1) := by
  refine ⟨rfl, ?_, rfl⟩
  decide

/-- C1, amended: the query endpoint performs no validation of the query
string or of top_k; the only check before retrieval is vector-store
availability, and every request that finds the store loaded proceeds
directly to the vector-store search with the request's query and top_k
unchanged. -/
theorem agent_endpoint_no_input_validation (req : AgentRequest) :
    agent_endpoint true req = AgentOutcome.retrievalAttempted req.query req.top_k :=
  rfl

/-- C4: when no vector store is loaded the handler fails with HTTP 503 (a
service-unavailable signal, not a client 4xx), and control never reaches
the retrieval call (hence also never the later LLM call). -/
theorem agent_endpoint_index_unavailable (req : AgentRequest) :
    agent_endpoint false req = AgentOutcome.httpError 503 ∧
    ∀ q k, agent_endpoint false req ≠ AgentOutcome.retrievalAttempted q k := by
  refine ⟨rfl, fun q k h => ?_⟩
  simp [agent_endpoint] at h

/-- Closed instance of the C4 theorem at a concrete request. -/
theorem agent_endpoint_index_unavailable_witness :
    agent_endpoint false { query := "fifo", top_k := 3 } = AgentOutcome.httpError 503 ∧
    agent_endpoint false { query := "fifo", top_k := 3 } ≠
      AgentOutcome.retrievalAttempted "fifo" 3 :=
  ⟨(agent_endpoint_index_unavailable { query := "fifo", top_k := 3 }).1,
   (agent_endpoint_index_unavailable { query := "fifo", top_k := 3 }).2 "fifo" 3⟩

/-! ## Prompt bank: claims C3 and C10 -/

/-- C3, counterexample: the claim says a template placeholder with no
supplied value makes assembly fail with `MissingParameterError` rather
than leaving the token verbatim.  `PromptBank.format_prompt` has no
failure path for that situation: with no parameters supplied it returns
the template unchanged, the placeholder token still occurring verbatim in
the returned prompt. -/
theorem format_prompt_missing_param_verbatim_cex :
    format_prompt "Hello \x7b\x7bname\x7d\x7d!".toList [] =
      { prompt := "Hello \x7b\x7bname\x7d\x7d!".toList, warnings := [] } ∧
    occursIn (placeholderOf "name".toList)
      (format_prompt "Hello \x7b\x7bname\x7d\x7d!".toList []).prompt = true := by
  exact ⟨rfl, by decide⟩

/-- C3, amended: `PromptBank.format_prompt` never fails on a missing
parameter: a placeholder with no supplied value is left verbatim in the
returned prompt (with no parameters the template comes back unchanged and
without warnings), and a supplied parameter whose placeholder does not
occur only adds a warning, leaving the prompt text untouched.  (The other
assembler, `get_prompt` in src/app/prompt.py, does raise a `KeyError`
naming the missing parameter, via the external template engine.) -/
theorem format_prompt_missing_param_no_failure (template : List Char) :
    format_prompt template [] = { prompt := template, warnings := [] } ∧
    (format_prompt "Hello \x7b\x7bname\x7d\x7d!".toList
        [("other".toList, "X".toList)]).prompt = "Hello \x7b\x7bname\x7d\x7d!".toList ∧
    (format_prompt "Hello \x7b\x7bname\x7d\x7d!".toList
        [("other".toList, "X".toList)]).warnings = [placeholderOf "other".toList] :=
  ⟨rfl, by decide, by decide⟩

/-- C10: `format_prompt` substitutes sequentially in the parameter list's
iteration order — substituting a parameter whose placeholder occurs
textually rewrites the accumulated prompt, and the remaining parameters
are then applied to the result — so a placeholder token contained in an
earlier parameter's value is replaced by a later parameter, and the
outcome can differ from a simultaneous substitution of all parameters. -/
theorem format_prompt_sequential_cascade :
    (∀ (t k v : List Char) (rest : List (List Char × List Char)),
        occursIn (placeholderOf k) t = true →
        format_prompt t ((k, v) :: rest) =
          format_prompt (replaceAll (placeholderOf k) v t) rest) ∧
    (format_prompt "\x7b\x7ba\x7d\x7d".toList
        [("a".toList, "\x7b\x7bb\x7d\x7d".toList), ("b".toList, "B".toList)]).prompt
      = "B".toList ∧
    simultaneousSubst
        [("a".toList, "\x7b\x7bb\x7d\x7d".toList), ("b".toList, "B".toList)]
        "\x7b\x7ba\x7d\x7d".toList = "\x7b\x7bb\x7d\x7d".toList ∧
    (format_prompt "\x7b\x7ba\x7d\x7d".toList
        [("a".toList, "\x7b\x7bb\x7d\x7d".toList), ("b".toList, "B".toList)]).prompt
      ≠ simultaneousSubst
          [("a".toList, "\x7b\x7bb\x7d\x7d".toList), ("b".toList, "B".toList)]
          "\x7b\x7ba\x7d\x7d".toList := by
  refine ⟨?_, by decide, by decide, by decide⟩
  intro t k v rest h
  simp [format_prompt, h]

/-- Closed instance of the sequential-substitution law of the C10 theorem,
with its hypothesis discharged at a concrete template and parameter. -/
theorem format_prompt_sequential_cascade_witness :
    occursIn (placeholderOf "q".toList) "\x7b\x7bq\x7d\x7d".toList = true ∧
    format_prompt "\x7b\x7bq\x7d\x7d".toList [("q".toList, "X".toList)] =
      format_prompt
        (replaceAll (placeholderOf "q".toList) "X".toList "\x7b\x7bq\x7d\x7d".toList)
        [] :=
  ⟨by decide, format_prompt_sequential_cascade.1 _ _ _ _ (by decide)⟩

/-! ## Corpus loader: claims C5, C6 and C9 -/

/-- C5: the corpus loader fails exactly when the root directory is missing
or the traversal matches no file; a missing root fails with the
not-found error, an empty match set with the no-files-found error, and
these are the only load-level failure modes (in particular, per-file read
failures never produce a load-level error). -/
theorem load_failure_modes (fs : FileSystem) :
    ((∃ e, load_sv_files_from_data fs = .error e) ↔
      fs.rootExists = false ∨ globMatches fs = []) ∧
    (fs.rootExists = false → load_sv_files_from_data fs = .error .notFound) ∧
    (fs.rootExists = true → globMatches fs = [] →
      load_sv_files_from_data fs = .error .noFilesFound) := by
  unfold load_sv_files_from_data
  cases hroot : fs.rootExists with
  | false => simp
  | true =>
    by_cases hm : globMatches fs = []
    · simp [hm, List.isEmpty_iff]
    · simp [hm, List.isEmpty_iff]

/-- Closed instance of the C5 theorem: a missing root and an extension-less
corpus hit the two failure modes. -/
theorem load_failure_modes_witness :
    load_sv_files_from_data fsNoRoot = .error .notFound ∧
    load_sv_files_from_data fsEmptyCorpus = .error .noFilesFound :=
  ⟨(load_failure_modes fsNoRoot).2.1 rfl,
   (load_failure_modes fsEmptyCorpus).2.2 rfl (by decide)⟩

/-- C6, counterexample: the claim says the loader returns documents sorted
by file path.  On a corpus whose traversal yields `a.svh` then `b.sv`, the
loader returns `b.sv` before `a.svh` — grouped by extension, not sorted by
path (`a.svh` precedes `b.sv` lexicographically). -/
theorem load_order_not_sorted_cex :
    (match load_sv_files_from_data fsMixed with
      | .ok docs => docs.map fun d => d.metadata.path
      | .error _ => []) = ["b.sv", "a.svh"] ∧
    "a.svh".toList < "b.sv".toList := by
  constructor
  · decide
  · decide

/-- C6, amended: the loader enumerates the corpus grouped by extension —
all `.sv` files first, then all `.svh` files — each group in the file
system's traversal order; no sorting by path is applied.  (Only the
file-listing endpoint sorts its output.) -/
theorem load_order_grouped_by_extension (fs : FileSystem) (docs : List Document)
    (h : load_sv_files_from_data fs = .ok docs) :
    docs.map (fun d => d.metadata.path) =
      ((fs.files.filter fun f => f.ext == "sv").filterMap
        fun f => f.readResult.map fun _ => f.relPath) ++
      ((fs.files.filter fun f => f.ext == "svh").filterMap
        fun f => f.readResult.map fun _ => f.relPath) := by
  have hg : globMatches fs =
      (fs.files.filter fun f => f.ext == "sv") ++
        (fs.files.filter fun f => f.ext == "svh") := by
    simp [globMatches, ALLOWED_FILE_EXTENSIONS]
  have hdocs : docs = (globMatches fs).filterMap fun f => f.readResult.map (docOfFile f) := by
    unfold load_sv_files_from_data at h
    by_cases hroot : fs.rootExists
    · by_cases hm : (globMatches fs).isEmpty
      · simp [hroot, hm] at h
      · simp [hroot, hm] at h
        exact h.symm
    · simp [hroot] at h
  subst hdocs
  rw [List.map_filterMap, hg, List.filterMap_append]
  have hfun : (fun f : FSFile =>
      Option.map (fun d => d.metadata.path) (f.readResult.map (docOfFile f))) =
      fun f : FSFile => f.readResult.map fun _ => f.relPath := by
    funext f
    cases f.readResult <;> rfl
  rw [hfun]

/-- Closed instance of the C6 amended theorem at the mixed-extension
corpus: the loader's output order is the extension-grouped traversal
order. -/
theorem load_order_grouped_by_extension_witness :
    ([docOfFile svLaterFile "b".toList, docOfFile svhFirstFile "a".toList].map
        fun d => d.metadata.path) =
      ((fsMixed.files.filter fun f => f.ext == "sv").filterMap
        fun f => f.readResult.map fun _ => f.relPath) ++
      ((fsMixed.files.filter fun f => f.ext == "svh").filterMap
        fun f => f.readResult.map fun _ => f.relPath) :=
  load_order_grouped_by_extension fsMixed _ rfl

/-- C9: a read failure of an individual file is skipped while the load
continues: whenever the root exists and at least one file matches, the
loader succeeds — even if some matched file is unreadable — returning, in
order, one document per matched file whose read succeeded; every readable
matched file contributes its document. -/
theorem load_skips_unreadable (fs : FileSystem)
    (hroot : fs.rootExists = true) (hsome : globMatches fs ≠ []) :
    load_sv_files_from_data fs =
      .ok ((globMatches fs).filterMap fun f => f.readResult.map (docOfFile f)) ∧
    ∀ f ∈ globMatches fs, ∀ content, f.readResult = some content →
      docOfFile f content ∈
        (globMatches fs).filterMap fun f => f.readResult.map (docOfFile f) := by
  constructor
  · unfold load_sv_files_from_data
    simp [hroot, hsome, List.isEmpty_iff]
  · intro f hf content hcontent
    exact List.mem_filterMap.mpr ⟨f, hf, by simp [hcontent]⟩

/-- Closed instance of the C9 theorem on a corpus with one unreadable and
one readable file: the load succeeds and the result is exactly the
readable file's document. -/
theorem load_skips_unreadable_witness :
    (load_sv_files_from_data fsPartial =
      .ok ((globMatches fsPartial).filterMap fun f => f.readResult.map (docOfFile f)) ∧
     ∀ f ∈ globMatches fsPartial, ∀ content, f.readResult = some content →
      docOfFile f content ∈
        (globMatches fsPartial).filterMap fun f => f.readResult.map (docOfFile f)) ∧
    ((globMatches fsPartial).filterMap fun f => f.readResult.map (docOfFile f)) =
      [docOfFile goodFile "xy".toList] :=
  ⟨load_skips_unreadable fsPartial rfl (by decide), by decide⟩

/-! ## Stats endpoint: claim C8 -/

/-- C8: on a corpus of one 1024-byte `.sv` file and one 512-byte `.svh`
file, the stats endpoint reports 2 total files, per-extension counts
sv = 1 and svh = 1, 1536 total bytes, and 0.0 megabytes after rounding to
2 decimals. -/
theorem get_stats_concrete :
    get_stats fsStats =
      some { total_files := 2, file_types := [("sv", 1), ("svh", 1)],
             total_size_bytes := 1536, total_size_mb := 0 } := by
  have h1 : get_stats fsStats =
      some { total_files := 2, file_types := [("sv", 1), ("svh", 1)],
             total_size_bytes := 1536,
             total_size_mb := round2 ((1536 : ℚ) / (1024 * 1024)) } := rfl
  have h2 : round2 ((1536 : ℚ) / (1024 * 1024)) = 0 := by
    unfold round2
    rw [round_eq]
    norm_num
  rw [h1, h2]

/-! ## Chunker: claims C2 and C7 -/

/-- Every chunk the windowing splitter produces is nonempty and no longer
than the window size. -/
theorem chunkWindowsFuel_sound {α : Type} (size ov : Nat) (hsize : 1 ≤ size) :
    ∀ (fuel : Nat) (l c : List α), c ∈ chunkWindowsFuel size ov fuel l →
      c ≠ [] ∧ c.length ≤ size := by
  intro fuel
  induction fuel with
  | zero =>
    intro l c hc
    cases l <;> simp [chunkWindowsFuel] at hc
  | succ n ih =>
    intro l c hc
    cases l with
    | nil => simp [chunkWindowsFuel] at hc
    | cons a t =>
      simp only [chunkWindowsFuel] at hc
      by_cases hlen : (a :: t).length ≤ size
      · rw [if_pos hlen] at hc
        simp only [List.mem_singleton] at hc
        subst hc
        exact ⟨by simp, hlen⟩
      · rw [if_neg hlen] at hc
        rcases List.mem_cons.mp hc with hc | hc
        · subst hc
          constructor
          · have hpos : 0 < ((a :: t).take size).length := by
              rw [List.length_take]
              simp only [List.length_cons]
              omega
            exact List.ne_nil_of_length_pos hpos
          · rw [List.length_take]
            omega
        · exact ih _ _ hc

/-- Removing the overlap from the front of every window and concatenating
recovers the input minus its first `ov` elements, for sufficient fuel. -/
theorem dropOverlapJoin_chunkWindowsFuel {α : Type} (size ov : Nat) (hov : ov < size) :
    ∀ (fuel : Nat) (l : List α), l.length ≤ fuel →
      dropOverlapJoin ov (chunkWindowsFuel size ov fuel l) = l.drop ov := by
  intro fuel
  induction fuel with
  | zero =>
    intro l hl
    have hnil : l = [] := List.eq_nil_of_length_eq_zero (Nat.le_zero.mp hl)
    subst hnil
    simp [chunkWindowsFuel, dropOverlapJoin]
  | succ n ih =>
    intro l hl
    cases l with
    | nil => simp [chunkWindowsFuel, dropOverlapJoin]
    | cons a t =>
      simp only [chunkWindowsFuel]
      by_cases hlen : (a :: t).length ≤ size
      · rw [if_pos hlen]
        simp [dropOverlapJoin]
      · rw [if_neg hlen]
        have hstep : max 1 (size - ov) = size - ov := by omega
        have hrec : ((a :: t).drop (max 1 (size - ov))).length ≤ n := by
          rw [List.length_drop]
          simp only [List.length_cons] at hl hlen ⊢
          omega
        rw [dropOverlapJoin, ih _ hrec, List.drop_drop, hstep, List.drop_take]
        have harith : size - ov + ov = ov + (size - ov) := by omega
        rw [harith, ← List.drop_drop, List.take_append_drop]

/-- The round-trip law for the windowing splitter: keeping the first chunk
whole and removing the overlap from the front of every later chunk
reassembles the document exactly. -/
theorem reassemble_chunkWindows {α : Type} (size ov : Nat) (hov : ov < size)
    (l : List α) : reassemble ov (chunkWindows size ov l) = l := by
  unfold chunkWindows
  cases l with
  | nil => simp [chunkWindowsFuel, reassemble]
  | cons a t =>
    have hfuel : (a :: t).length = t.length + 1 := rfl
    rw [hfuel]
    simp only [chunkWindowsFuel]
    by_cases hlen : (a :: t).length ≤ size
    · rw [if_pos hlen]
      simp [reassemble, dropOverlapJoin]
    · rw [if_neg hlen]
      have hstep : max 1 (size - ov) = size - ov := by omega
      have hrec : ((a :: t).drop (max 1 (size - ov))).length ≤ t.length := by
        rw [List.length_drop]
        simp only [List.length_cons]
        omega
      rw [reassemble, dropOverlapJoin_chunkWindowsFuel size ov hov _ _ hrec,
        List.drop_drop, hstep]
      have harith : size - ov + ov = size := by omega
      rw [harith, List.take_append_drop]

/-- C2: concatenating the chunks that the pipeline produces for a document
— the first chunk whole, each later chunk with the configured 200-unit
overlap removed — reconstructs the document's content exactly. -/
theorem split_content_roundtrip (d : Document) :
    reassemble 200 ((split_content [d]).map Chunk.page_content) = d.page_content := by
  have hmap : (split_content [d]).map Chunk.page_content = split_text d.page_content := by
    simp only [split_content, List.flatMap_cons, List.flatMap_nil, List.append_nil,
      List.map_map]
    have : (Chunk.page_content ∘ fun ic : Nat × List Char =>
        ({ page_content := ic.2,
           metadata := { parent := d.metadata, chunk_index := ic.1,
                         total_chunks := (split_text d.page_content).length } } : Chunk))
        = Prod.snd := rfl
    rw [this, List.enum_map_snd]
  rw [hmap]
  exact reassemble_chunkWindows 1000 200 (by omega) d.page_content

/-- C7: every chunk `split_content` produces is nonempty, is at most the
configured 1000-unit window long, and carries the parent document's
metadata together with its 0-based chunk index and the document's total
chunk count; the index is within range and addresses exactly this chunk's
content in the parent's chunk sequence. -/
theorem split_content_chunk_invariants (docs : List Document) (c : Chunk)
    (hc : c ∈ split_content docs) :
    c.page_content ≠ [] ∧ c.page_content.length ≤ 1000 ∧
      ∃ d ∈ docs,
        c.metadata.parent = d.metadata ∧
        c.metadata.total_chunks = (split_text d.page_content).length ∧
        c.metadata.chunk_index < c.metadata.total_chunks ∧
        (split_text d.page_content)[c.metadata.chunk_index]? = some c.page_content := by
  rcases List.mem_flatMap.mp hc with ⟨d, hd, hcd⟩
  rcases List.mem_map.mp hcd with ⟨ic, hic, rfl⟩
  obtain ⟨i, x⟩ := ic
  obtain ⟨hlt, hval⟩ := List.mem_enum hic
  have hmem : x ∈ split_text d.page_content := by
    rw [hval]
    exact List.getElem_mem hlt
  have hsound := chunkWindowsFuel_sound 1000 200 (by omega) _ _ _ hmem
  refine ⟨hsound.1, hsound.2, d, hd, rfl, rfl, hlt, ?_⟩
  rw [List.getElem?_eq_getElem hlt, hval]

/-- Closed instance of the C7 theorem: the single chunk of a small sample
document satisfies all the chunk invariants. -/
theorem split_content_chunk_invariants_witness :
    sampleChunk ∈ split_content [sampleDoc] ∧
    (sampleChunk.page_content ≠ [] ∧ sampleChunk.page_content.length ≤ 1000 ∧
      ∃ d ∈ [sampleDoc],
        sampleChunk.metadata.parent = d.metadata ∧
        sampleChunk.metadata.total_chunks = (split_text d.page_content).length ∧
        sampleChunk.metadata.chunk_index < sampleChunk.metadata.total_chunks ∧
        (split_text d.page_content)[sampleChunk.metadata.chunk_index]? =
          some sampleChunk.page_content) :=
  ⟨by decide, split_content_chunk_invariants [sampleDoc] sampleChunk (by decide)⟩

end VeriGPT
